import Mathlib

/-!
Shallow embedding of `src/utils.py` from the audioset-processing repository.

The file models the four pure cores of the script:
* the row filter of `create_csv` (the list comprehension building `to_write`;
  its blacklist check `set(row[3]).intersection(blacklisted_ids)` receives a
  list of lists, and `set.intersection` hashes each element of its argument,
  so the check raises `TypeError: unhashable type: 'list'` as soon as some
  wanted label matches a row and short-circuit `and` lets it be evaluated),
* the label resolver `get_label_id` (including its diagnostic block, which
  concatenates a Python `str` with a `list` and therefore raises `TypeError`
  whenever at most one identifier matched),
* the grouper `get_yt_ids` (dict building plus the cleanup loop, which pops a
  key while iterating and then reads the popped key, raising `KeyError`),
* the copier `sort_files` (modelled on a destination tree given as a map from
  `(label, filename)` to file contents).

CSV fields are strings; Python exceptions are modelled with `Except`.
-/

set_option autoImplicit false

namespace AudiosetProcessing

/-- Python's `str.lower` on one character: class names and display names in the
label index are ASCII, where `lower` maps `A`-`Z` to `a`-`z`. -/
def lowerChar (c : Char) : Char :=
  if c.isUpper then Char.ofNat (c.toNat + 32) else c

/-- Python's `str.lower` on a whole string. -/
def lowerStr (s : String) : String :=
  ⟨s.toList.map lowerChar⟩

/-- Python's `needle in haystack` on strings: contiguous substring containment. -/
def isSubstring (needle haystack : String) : Bool :=
  let n := needle.toList
  let h := haystack.toList
  (List.range (h.length + 1)).any (fun i => n.isPrefixOf (h.drop i))

/-- One row of the dataset CSV, as read by `csv.reader`: all fields are strings.
`raw_labels` is `row[3]`, the undelimited label field. -/
structure DatasetRow where
  media_id : String
  start_offset : String
  end_offset : String
  raw_labels : String
deriving DecidableEq

/-- The Python values that can appear in the blacklist intersection check of
`create_csv`: `set(row[3])` holds one-character strings, while
`blacklisted_ids` holds lists of identifier strings (each produced by
`get_label_id`).  Strings are hashable; lists are not, and hashing one raises
`TypeError: unhashable type: 'list'`. -/
inductive PyVal where
  | str : String → PyVal
  | list : List String → PyVal
deriving DecidableEq

/-- Python exceptions raised by the script's buggy paths. -/
inductive PyError where
  | typeError
  | keyError
deriving DecidableEq

/-- `set(row[3])`: the set of characters of the raw label field, each a
one-character Python string. -/
def rowCharSet (raw : String) : List PyVal :=
  raw.toList.map (fun c => PyVal.str (String.singleton c))

/-- Whether Python can hash the value: lists are unhashable. -/
def pyHashable : PyVal → Bool
  | PyVal.str _ => true
  | PyVal.list _ => false

/-- `set(row[3]).intersection(blacklisted_ids)`, evaluated as CPython does when
the argument is not a set: iterate the argument, hash each element — raising
`TypeError: unhashable type: 'list'` at the first list element — and test
membership in the character set.  The `Bool` is the truthiness of the
resulting set, i.e. whether the intersection is non-empty; it is only
produced when every element hashed. -/
def set_intersection_truthy (chars : List PyVal) : List PyVal → Except PyError Bool
  | [] => Except.ok false
  | v :: rest =>
    if pyHashable v then
      match set_intersection_truthy chars rest with
      | Except.error e => Except.error e
      | Except.ok b => Except.ok (chars.contains v || b)
    else
      Except.error PyError.typeError

/-- One row's inner loop over `label_id` in the comprehension of `create_csv`
(utils.py line 63), with Python's left-to-right evaluation and short-circuit
`and`: for each wanted label, if `label in row[3]` holds, the blacklist
intersection is evaluated (possibly raising `TypeError`); the row is emitted
when the label matches and the intersection is empty. -/
def filter_row_labels (row : DatasetRow) (blacklisted_ids : List PyVal) :
    List String → Except PyError (List DatasetRow)
  | [] => Except.ok []
  | label :: rest =>
    if isSubstring label row.raw_labels then
      match set_intersection_truthy (rowCharSet row.raw_labels) blacklisted_ids with
      | Except.error e => Except.error e
      | Except.ok b =>
        if b then filter_row_labels row blacklisted_ids rest
        else (filter_row_labels row blacklisted_ids rest).map (fun l => row :: l)
    else
      filter_row_labels row blacklisted_ids rest

/-- The filter of `create_csv` (utils.py line 63):
`[row for row in reader for label in label_id
   if label in row[3] and bool(set(row[3]).intersection(blacklisted_ids)) is False]`.
Rows outer, wanted labels inner; the first exception aborts the comprehension,
so nothing is written in that case. -/
def create_csv_rows : List DatasetRow → List String → List PyVal →
    Except PyError (List DatasetRow)
  | [], _, _ => Except.ok []
  | row :: rest, label_id, blacklisted_ids =>
    match filter_row_labels row blacklisted_ids label_id with
    | Except.error e => Except.error e
    | Except.ok part =>
      (create_csv_rows rest label_id blacklisted_ids).map (fun l => part ++ l)

/-- One row of `class_labels_indices.csv`: columns `index`, `mid`,
`display_name` (consumed by name via `csv.DictReader`). -/
structure LabelIndexEntry where
  index : String
  mid : String
  display_name : String
deriving DecidableEq

/-- The match list computed by `get_label_id` (utils.py lines 96-100):
`[row[id] for row in reader if class_name.lower() == row[display_name].lower()]`
when strict, and with `in` instead of `==` when non-strict. -/
def get_label_id_matches (class_name : String) (strict : Bool)
    (table : List LabelIndexEntry) : List String :=
  if strict then
    (table.filter (fun row => lowerStr class_name == lowerStr row.display_name)).map
      (fun row => row.mid)
  else
    (table.filter (fun row => isSubstring (lowerStr class_name) (lowerStr row.display_name))).map
      (fun row => row.mid)

/-- Full `get_label_id` (utils.py lines 90-112).  `label_ids` is always a list,
so the `if label_ids is None` branch never fires; when `len(label_ids) > 1`
the function prints the list and returns it; otherwise (zero or one match) it
executes `print("Label ID for ... : " + label_ids)`, and concatenating a `str`
with a `list` raises `TypeError`, so the function never returns. -/
def get_label_id (class_name : String) (strict : Bool)
    (table : List LabelIndexEntry) : Except PyError (List String) :=
  let label_ids := get_label_id_matches class_name strict table
  if label_ids.length > 1 then
    Except.ok label_ids
  else
    Except.error PyError.typeError

/-- The two-entry label-index table of the spec's resolver scenario. -/
def fixtureTable : List LabelIndexEntry :=
  [⟨"0", "/m/09x0r", "Speech"⟩, ⟨"1", "/m/02zsn", "Female speech, woman speaking"⟩]

/-- The dict comprehension `{label: [] for label in label_ids}` opening
`get_yt_ids` (utils.py line 124): keys in first-insertion order, each mapped
to a fresh empty list (a duplicate label re-assigns the same empty value). -/
def init_dict (label_ids : List String) : List (String × List String) :=
  label_ids.foldl
    (fun acc l => if acc.any (fun p => p.1 == l) then acc else acc ++ [(l, [])]) []

/-- `yt_ids[label].append(row[0])`: append `v` to the list stored at key `k`. -/
def appendAt (d : List (String × List String)) (k v : String) :
    List (String × List String) :=
  d.map (fun p => if p.1 == k then (p.1, p.2 ++ [v]) else p)

/-- The appending comprehension of `get_yt_ids` (utils.py line 130):
`[(yt_ids[label].append(row[0])) for row in reader for label in label_ids
   if label in row[3]]` run against the initial dict. -/
def build_yt_dict (label_ids : List String) (rows : List DatasetRow) :
    List (String × List String) :=
  rows.foldl
    (fun d row =>
      label_ids.foldl
        (fun d2 label =>
          if isSubstring label row.raw_labels then appendAt d2 label row.media_id else d2)
        d)
    (init_dict label_ids)

/-- Python dict lookup `d[k]` as an option: the value of the first (unique)
entry with key `k`. -/
def lookup_dict (d : List (String × List String)) (k : String) : Option (List String) :=
  (d.find? (fun p => p.1 == k)).map (fun p => p.2)

/-- The reporting loop of `get_yt_ids` (utils.py lines 132-139).  It iterates
over the dict; on a key with an empty list it prints "No clips found", pops
the key, and then immediately evaluates `yt_ids[label]` for the next print,
which raises `KeyError` because the key was just removed.  (Had that line not
raised, the next step of the iterator would raise `RuntimeError` for mutating
the dict during iteration.)  On a key with a non-empty list it only prints. -/
def report_loop : List (String × List String) → Except PyError (List (String × List String))
  | [] => Except.ok []
  | (l, ids) :: rest =>
    if ids.isEmpty then
      Except.error PyError.keyError
    else
      (report_loop rest).map (fun r => (l, ids) :: r)

/-- Full `get_yt_ids` (utils.py lines 123-141): build the dict, then run the
reporting loop, returning the dict when every label collected some clip and
raising `KeyError` as soon as one label collected none. -/
def get_yt_ids (label_ids : List String) (rows : List DatasetRow) :
    Except PyError (List (String × List String)) :=
  report_loop (build_yt_dict label_ids rows)

/-- Destination tree of `sort_files`: contents of `dst_dir/label/filename`,
indexed by the pair `(label, filename)`. -/
abbrev DestTree : Type := String × String → Option String

/-- `copyfile(src, dst)`: (over)write one destination file. -/
def store (d : DestTree) (k : String × String) (c : String) : DestTree :=
  fun k2 => if k2 = k then some c else d k2

/-- The inner loop of `sort_files` (utils.py lines 165-169): for one directory
entry `file` with contents `content`, walk the `yt_ids.items()` pairs and copy
the file into `dst_dir/label` whenever some yt id of that label is a substring
of the file name. -/
def copy_for_labels (file content : String) :
    List (String × List String) → DestTree → DestTree
  | [], d => d
  | (label, yt_id_list) :: rest, d =>
    copy_for_labels file content rest
      (if yt_id_list.any (fun y => isSubstring y file) then
        store d (label, file) content
      else
        d)

/-- The outer loop of `sort_files` (utils.py line 164): iterate once over the
(non-recursive) listing of `file_dir`, each entry given with its contents. -/
def sort_files_loop :
    List (String × String) → List (String × List String) → DestTree → DestTree
  | [], _, d => d
  | (file, content) :: rest, yt_ids, d =>
    sort_files_loop rest yt_ids (copy_for_labels file content yt_ids d)

/-- `sort_files` as a filesystem-state transformer: the state is the source
directory listing (filename, contents) together with the destination tree.
The function only reads the source (`os.listdir`, `copyfile` source side) and
writes destination paths, so the source component is returned unchanged. -/
def sort_files (yt_ids : List (String × List String))
    (st : List (String × String) × DestTree) :
    List (String × String) × DestTree :=
  (st.1, sort_files_loop st.1 yt_ids st.2)

/-- Whether some `yt_ids.items()` entry for `label` has an id occurring in
`file` — the condition under which `sort_files` copies `file` into
`dst_dir/label`. -/
def matches_some_id (yt_ids : List (String × List String)) (label file : String) : Bool :=
  yt_ids.any (fun p => p.1 == label && p.2.any (fun y => isSubstring y file))

/-- Contents of the last entry of the source listing named `file`, if any:
the value that last-write-wins copying leaves at a destination. -/
def last_content : List (String × String) → String → Option String
  | [], _ => none
  | (f0, c0) :: rest, f =>
    match last_content rest f with
    | some c => some c
    | none => if f0 == f then some c0 else none

/-- First-some choice on options, used to phrase last-write-wins copying. -/
def orDefault (o fallback : Option String) : Option String :=
  match o with
  | some c => some c
  | none => fallback

theorem orDefault_some (c : String) (fallback : Option String) :
    orDefault (some c) fallback = some c := rfl

theorem orDefault_none (fallback : Option String) :
    orDefault none fallback = fallback := rfl

theorem store_apply (d : DestTree) (k : String × String) (c : String) (k2 : String × String) :
    store d k c k2 = if k2 = k then some c else d k2 := rfl

theorem copy_for_labels_apply (file content : String) (g : List (String × List String)) :
    ∀ (d : DestTree) (l f : String),
      copy_for_labels file content g d (l, f) =
        if f = file ∧ matches_some_id g l file = true then some content else d (l, f) := by
  induction g with
  | nil =>
    intro d l f
    simp [copy_for_labels, matches_some_id]
  | cons p rest ih =>
    intro d l f
    obtain ⟨label, ids⟩ := p
    rw [copy_for_labels, ih]
    simp only [matches_some_id, List.any_cons, Bool.or_eq_true, Bool.and_eq_true, beq_iff_eq]
    by_cases hf : f = file
    · subst hf
      by_cases hrest : (rest.any fun p => p.1 == l && p.2.any fun y => isSubstring y f) = true
      · simp [hrest, matches_some_id]
      · simp only [matches_some_id] at hrest
        by_cases hl : label = l
        · subst hl
          by_cases hids : (ids.any fun y => isSubstring y f) = true
          · simp [hrest, hids, store_apply]
          · simp [hrest, hids]
        · by_cases hids : (ids.any fun y => isSubstring y f) = true
          · simp [hrest, hids, store_apply, hl, Ne.symm hl, Prod.ext_iff]
          · simp [hrest, hids, hl, Ne.symm hl]
    · by_cases hids : (ids.any fun y => isSubstring y file) = true
      · simp [hf, hids, store_apply, Prod.ext_iff, matches_some_id]
      · simp [hf, hids, matches_some_id]

theorem sort_files_loop_apply (g : List (String × List String)) :
    ∀ (src : List (String × String)) (d : DestTree) (l f : String),
      sort_files_loop src g d (l, f) =
        orDefault (if matches_some_id g l f = true then last_content src f else none)
          (d (l, f)) := by
  intro src
  induction src with
  | nil =>
    intro d l f
    by_cases hm : matches_some_id g l f = true <;> simp [sort_files_loop, last_content, hm, orDefault]
  | cons p rest ih =>
    intro d l f
    obtain ⟨f0, c0⟩ := p
    rw [sort_files_loop, ih, copy_for_labels_apply]
    by_cases hm : matches_some_id g l f = true
    · rw [if_pos hm, if_pos hm]
      cases hlc : last_content rest f with
      | some c =>
        simp [last_content, hlc, orDefault]
      | none =>
        by_cases hf : f = f0
        · subst hf
          simp [last_content, hlc, orDefault, hm]
        · simp [last_content, hlc, orDefault, hf, Ne.symm hf]
    · rw [if_neg hm, if_neg hm, orDefault_none, orDefault_none]
      by_cases hf : f = f0
      · subst hf
        simp [hm]
      · simp [hf]

theorem matches_some_id_iff (g : List (String × List String)) (l f : String) :
    matches_some_id g l f = true ↔
      ∃ ids, (l, ids) ∈ g ∧ ids.any (fun y => isSubstring y f) = true := by
  simp only [matches_some_id, List.any_eq_true, Bool.and_eq_true, beq_iff_eq]
  constructor
  · rintro ⟨⟨a, b⟩, hmem, ha, hb⟩
    subst ha
    exact ⟨b, hmem, hb⟩
  · rintro ⟨ids, hmem, h⟩
    exact ⟨(l, ids), hmem, rfl, h⟩

theorem keys_nodup_val_unique :
    ∀ (src : List (String × String)), (src.map Prod.fst).Nodup →
      ∀ {f c c'}, (f, c) ∈ src → (f, c') ∈ src → c = c' := by
  intro src
  induction src with
  | nil =>
    intro _ f c c' h
    simp at h
  | cons p rest ih =>
    intro hnd f c c' h1 h2
    rw [List.map_cons, List.nodup_cons] at hnd
    rcases List.mem_cons.mp h1 with h1 | h1 <;> rcases List.mem_cons.mp h2 with h2 | h2
    · exact congrArg Prod.snd (h1.trans h2.symm)
    · exfalso
      apply hnd.1
      rw [← h1]
      show f ∈ List.map Prod.fst rest
      exact List.mem_map_of_mem Prod.fst h2
    · exfalso
      apply hnd.1
      rw [← h2]
      show f ∈ List.map Prod.fst rest
      exact List.mem_map_of_mem Prod.fst h1
    · exact ih hnd.2 h1 h2

theorem last_content_eq_some_iff :
    ∀ (src : List (String × String)), (src.map Prod.fst).Nodup →
      ∀ (f c : String), (last_content src f = some c ↔ (f, c) ∈ src) := by
  intro src
  induction src with
  | nil =>
    intro _ f c
    simp [last_content]
  | cons p rest ih =>
    intro hnd f c
    obtain ⟨f0, c0⟩ := p
    rw [List.map_cons, List.nodup_cons] at hnd
    have ihr := ih hnd.2 f
    cases hlc : last_content rest f with
    | some c2 =>
      have hmem : (f, c2) ∈ rest := (ihr c2).mp hlc
      have hne : f ≠ f0 := by
        intro h
        apply hnd.1
        rw [← h]
        show f ∈ List.map Prod.fst rest
        exact List.mem_map_of_mem Prod.fst hmem
      simp only [last_content, hlc, List.mem_cons]
      constructor
      · intro h
        have hc : c2 = c := Option.some.inj h
        exact Or.inr (hc ▸ hmem)
      · rintro (h | h)
        · exact absurd (congrArg Prod.fst h) hne
        · rw [keys_nodup_val_unique rest hnd.2 h hmem]
    | none =>
      have hnomem : ∀ c2, (f, c2) ∉ rest := by
        intro c2 hc2
        rw [← ihr c2, hlc] at hc2
        exact Option.noConfusion hc2
      simp only [last_content, hlc, List.mem_cons]
      by_cases hf : f0 = f
      · subst hf
        simp only [beq_self_eq_true, if_true]
        constructor
        · intro h
          exact Or.inl (by rw [← Option.some.inj h])
        · rintro (h | h)
          · exact congrArg some (congrArg Prod.snd h).symm
          · exact absurd h (hnomem c)
      · simp [hf, Ne.symm hf, hnomem c, Prod.ext_iff]

theorem init_dict_go :
    ∀ (l : List String) (acc : List (String × List String)), l.Nodup →
      (∀ x ∈ l, (acc.any fun p => p.1 == x) = false) →
      l.foldl
          (fun acc x => if acc.any (fun p => p.1 == x) then acc else acc ++ [(x, [])]) acc =
        acc ++ l.map (fun x => (x, [])) := by
  intro l
  induction l with
  | nil =>
    intro acc _ _
    simp
  | cons x rest ih =>
    intro acc hnd hfresh
    rw [List.nodup_cons] at hnd
    rw [List.foldl_cons, if_neg (by rw [hfresh x (List.mem_cons_self x rest)]; exact fun h => Bool.noConfusion h)]
    rw [ih (acc ++ [(x, [])]) hnd.2]
    · simp
    · intro y hy
      rw [List.any_append]
      rw [hfresh y (List.mem_cons_of_mem x hy)]
      simp only [Bool.false_or, List.any_cons, List.any_nil, Bool.or_false]
      have hxy : x ≠ y := fun h => hnd.1 (h ▸ hy)
      simp [hxy]

theorem init_dict_eq (label_ids : List String) (hnd : label_ids.Nodup) :
    init_dict label_ids = label_ids.map (fun l => (l, [])) := by
  rw [init_dict, init_dict_go label_ids [] hnd (by intro x _; simp)]
  simp

theorem lookup_init :
    ∀ (label_ids : List String) (l : String), l ∈ label_ids →
      lookup_dict (label_ids.map fun x => (x, [])) l = some [] := by
  intro label_ids
  induction label_ids with
  | nil =>
    intro l h
    simp at h
  | cons x rest ih =>
    intro l hl
    rw [List.map_cons]
    by_cases hx : x = l
    · subst hx
      simp [lookup_dict, List.find?]
    · rcases List.mem_cons.mp hl with h | h
      · exact absurd h.symm hx
      · have := ih l h
        simp only [lookup_dict, List.find?] at this ⊢
        rw [show ((x, ([] : List String)).1 == l) = false from by simp [hx]]
        exact this

theorem lookup_dict_cons (x : String × List String) (xs : List (String × List String))
    (k' : String) :
    lookup_dict (x :: xs) k' = if x.1 = k' then some x.2 else lookup_dict xs k' := by
  by_cases h : x.1 = k'
  · rw [if_pos h]
    simp [lookup_dict, List.find?_cons_of_pos, h]
  · rw [if_neg h]
    simp only [lookup_dict]
    rw [List.find?_cons_of_neg _ (by simp [h])]

theorem appendAt_cons (a : String) (b : List String) (rest : List (String × List String))
    (k v : String) :
    appendAt ((a, b) :: rest) k v =
      (if a = k then (a, b ++ [v]) else (a, b)) :: appendAt rest k v := by
  simp only [appendAt, List.map_cons]
  by_cases h : a = k <;> simp [h]

theorem lookup_appendAt :
    ∀ (d : List (String × List String)) (k v k' : String),
      lookup_dict (appendAt d k v) k' =
        if k' = k then (lookup_dict d k').map (fun ids => ids ++ [v])
        else lookup_dict d k' := by
  intro d
  induction d with
  | nil =>
    intro k v k'
    by_cases h : k' = k <;> simp [appendAt, lookup_dict, h]
  | cons p rest ih =>
    intro k v k'
    obtain ⟨a, b⟩ := p
    rw [appendAt_cons, lookup_dict_cons, lookup_dict_cons]
    by_cases hak : a = k
    · subst hak
      by_cases hk : k' = a
      · subst hk
        simp [ih]
      · simp [hk, Ne.symm hk, ih]
    · by_cases hk : k' = a
      · subst hk
        simp [hak]
      · simp [hk, Ne.symm hk, hak, ih]

theorem row_fold_lookup (row : DatasetRow) :
    ∀ (label_ids : List String), label_ids.Nodup →
      ∀ (d : List (String × List String)) (l : String),
        lookup_dict
            (label_ids.foldl
              (fun d2 label =>
                if isSubstring label row.raw_labels then appendAt d2 label row.media_id
                else d2)
              d)
            l =
          if l ∈ label_ids ∧ isSubstring l row.raw_labels = true then
            (lookup_dict d l).map (fun ids => ids ++ [row.media_id])
          else lookup_dict d l := by
  intro label_ids
  induction label_ids with
  | nil =>
    intro _ d l
    simp
  | cons x rest ih =>
    intro hnd d l
    rw [List.nodup_cons] at hnd
    simp only [List.foldl_cons]
    by_cases hsx : isSubstring x row.raw_labels = true
    · rw [if_pos hsx, ih hnd.2, lookup_appendAt]
      by_cases hlx : l = x
      · subst hlx
        simp [hnd.1, hsx]
      · simp only [List.mem_cons, hlx, false_or]
        by_cases hA : l ∈ rest ∧ isSubstring l row.raw_labels = true
        · rw [if_pos hA, if_pos hA]
          simp
        · rw [if_neg hA, if_neg hA]
          simp
    · rw [if_neg hsx, ih hnd.2]
      by_cases hlx : l = x
      · subst hlx
        simp [hsx]
      · simp only [List.mem_cons, hlx, false_or]

theorem build_fold_lookup (label_ids : List String) (hnd : label_ids.Nodup) (l : String)
    (hml : l ∈ label_ids) :
    ∀ (rows : List DatasetRow) (d : List (String × List String)) (v : List String),
      lookup_dict d l = some v →
      lookup_dict
          (rows.foldl
            (fun d row =>
              label_ids.foldl
                (fun d2 label =>
                  if isSubstring label row.raw_labels then appendAt d2 label row.media_id
                  else d2)
                d)
            d)
          l =
        some (v ++ (rows.filter (fun r => isSubstring l r.raw_labels)).map
          (fun r => r.media_id)) := by
  intro rows
  induction rows with
  | nil =>
    intro d v hd
    simpa using hd
  | cons r rest ih =>
    intro d v hd
    rw [List.foldl_cons]
    by_cases hsl : isSubstring l r.raw_labels = true
    · have hstep := row_fold_lookup r label_ids hnd d l
      rw [if_pos ⟨hml, hsl⟩, hd] at hstep
      have := ih _ (v ++ [r.media_id]) hstep
      rw [this]
      simp [List.filter_cons, hsl]
    · have hstep := row_fold_lookup r label_ids hnd d l
      rw [if_neg (fun h => hsl h.2), hd] at hstep
      have := ih _ v hstep
      rw [this]
      simp [List.filter_cons, hsl]

theorem filter_row_labels_empty_blacklist (row : DatasetRow) :
    ∀ label_id : List String,
      filter_row_labels row [] label_id =
        Except.ok (List.replicate
          ((label_id.filter fun l => isSubstring l row.raw_labels).length) row) := by
  intro label_id
  induction label_id with
  | nil =>
    rfl
  | cons x rest ih =>
    by_cases hx : isSubstring x row.raw_labels = true
    · simp [filter_row_labels, hx, ih, set_intersection_truthy, Except.map,
        List.filter_cons, List.replicate_succ]
    · simp [filter_row_labels, hx, ih, List.filter_cons]

/-!
Claim theorems.
-/

/-- Claim C1: the claim says the filter keeps exactly the rows containing a
wanted identifier and no blacklisted identifier, and in particular that the
scenario row is excluded when the blacklist resolves to "/m/0dgw9r".  With the
empty blacklist the row is kept, as claimed.  With the non-empty blacklist the
code never excludes the row: once the wanted label matches, it evaluates
`set(row[3]).intersection(blacklisted_ids)` where `blacklisted_ids` is a list
of lists, and `set.intersection` hashes each element of its argument, so the
program raises `TypeError: unhashable type: 'list'` at utils.py line 63 —
contrary to the claim and to the code's own comment "no labels of blacklisted
classes". -/
theorem create_csv_blacklist_raises_typeerror :
    create_csv_rows [⟨"abc123", "0", "10", "/m/09x0r,/m/0dgw9r"⟩] ["/m/09x0r"] [] =
        Except.ok [⟨"abc123", "0", "10", "/m/09x0r,/m/0dgw9r"⟩] ∧
      create_csv_rows [⟨"abc123", "0", "10", "/m/09x0r,/m/0dgw9r"⟩] ["/m/09x0r"]
          [PyVal.list ["/m/0dgw9r"]] =
        Except.error PyError.typeError :=
  ⟨rfl, rfl⟩

/-- Claim C2: the claim says a requested label that collected zero media
identifiers is dropped from the mapping and reported, not an error.  In the
code, the cleanup loop pops the empty key while iterating and then immediately
evaluates `yt_ids[label]` for the next print, raising `KeyError`.  This
theorem evaluates the grouper on a dataset with no matching row (KeyError is
raised instead of returning a mapping without the label) and on a dataset with
one matching row (the mapping is returned with a non-empty value). -/
theorem get_yt_ids_empty_label_raises_keyerror :
    get_yt_ids ["/m/09x0r"] [⟨"xyz", "0", "10", "/m/02zsn"⟩] =
        Except.error PyError.keyError ∧
      get_yt_ids ["/m/09x0r"] [⟨"abc123", "0", "10", "/m/09x0r"⟩] =
        Except.ok [("/m/09x0r", ["abc123"])] :=
  ⟨rfl, rfl⟩

/-- Claim C3: the claim says that with zero matching label-index entries the
resolver returns normally with an empty identifier set.  In the code the match
list is empty, so the diagnostic `else` branch runs
`print("Label ID for ... : " + label_ids)`, and concatenating a `str` with a
`list` raises `TypeError`: the resolver never returns.  (The guard
`if label_ids is None` never fires, since the comprehension yields a list.) -/
theorem get_label_id_zero_matches_raises_typeerror :
    get_label_id_matches "nosuchclass" false fixtureTable = [] ∧
      get_label_id "nosuchclass" false fixtureTable = Except.error PyError.typeError ∧
      get_label_id "nosuchclass" true fixtureTable = Except.error PyError.typeError :=
  ⟨rfl, rfl, rfl⟩

/-- Claim C4: the claim says `resolve(C, strict)` returns the identifiers whose
display name equals (strict) or contains (non-strict) C case-insensitively.
The match list the code computes does have exactly that content, but whenever
it has at most one element the function hits the `str + list` concatenation in
its diagnostic print and raises `TypeError` instead of returning.  This
theorem shows the failing input "speech" with strict=true on the fixture
table: the computed match list is exactly `["/m/09x0r"]`, yet `get_label_id`
raises instead of returning it. -/
theorem get_label_id_strict_unique_match_raises :
    get_label_id_matches "speech" true fixtureTable = ["/m/09x0r"] ∧
      get_label_id "speech" true fixtureTable = Except.error PyError.typeError :=
  ⟨rfl, rfl⟩

/-- Claim C5: the claim's scenario expects `resolve("female speech", false)` to
return {"/m/02zsn"} and `resolve("speech", false)` to return
{"/m/09x0r","/m/02zsn"} on the two-entry fixture table.  The second call
returns as claimed (two matches), but the first computes the single match
"/m/02zsn" and then raises `TypeError` in the diagnostic print instead of
returning it. -/
theorem resolver_fixture_scenario :
    get_label_id_matches "female speech" false fixtureTable = ["/m/02zsn"] ∧
      get_label_id "female speech" false fixtureTable = Except.error PyError.typeError ∧
      get_label_id "speech" false fixtureTable = Except.ok ["/m/09x0r", "/m/02zsn"] :=
  ⟨rfl, rfl, rfl⟩

/-- Claim C6: the claim says filtering with `blacklist = wanted` yields an
empty sequence.  With a row matching the wanted identifier, the code instead
raises `TypeError` at utils.py line 63: as soon as the wanted label matches,
the blacklist intersection hashes the list-valued blacklist entries and
crashes, so the filter produces no output at all — neither the claimed empty
sequence nor any rows. -/
theorem create_csv_wanted_equals_blacklist_raises :
    create_csv_rows [⟨"abc123", "0", "10", "/m/09x0r"⟩] ["/m/09x0r"]
          [PyVal.list ["/m/09x0r"]] =
        Except.error PyError.typeError ∧
      create_csv_rows [⟨"abc123", "0", "10", "/m/09x0r"⟩] ["/m/09x0r"]
          [PyVal.list ["/m/09x0r"]] ≠
        Except.ok [] := by
  refine ⟨rfl, ?_⟩
  intro h
  exact Except.noConfusion
    (show (Except.error PyError.typeError : Except PyError (List DatasetRow)) =
      Except.ok [] from h)

/-- Claim C7: `sort_files` is idempotent on the destination tree — running it a
second time over the unchanged source listing overwrites every copied file
with identical contents — and it never deletes or moves source files: the
source component of the state is returned unchanged. -/
theorem sort_files_idempotent_and_source_preserved
    (yt_ids : List (String × List String)) (st : List (String × String) × DestTree) :
    sort_files yt_ids (sort_files yt_ids st) = sort_files yt_ids st ∧
      (sort_files yt_ids st).1 = st.1 := by
  constructor
  · show (st.1, sort_files_loop st.1 yt_ids (sort_files_loop st.1 yt_ids st.2)) =
      (st.1, sort_files_loop st.1 yt_ids st.2)
    have h2 : sort_files_loop st.1 yt_ids (sort_files_loop st.1 yt_ids st.2) =
        sort_files_loop st.1 yt_ids st.2 := by
      funext k
      obtain ⟨l, f⟩ := k
      simp only [sort_files_loop_apply]
      cases hv : (if matches_some_id yt_ids l f = true then last_content st.1 f else none) with
      | some c => rw [orDefault_some, orDefault_some]
      | none => rw [orDefault_none, orDefault_none]
    rw [h2]
  · rfl

/-- Claim C8 counterexample: the claim says a media identifier occurring in
multiple matching rows appears only once in the label's collection.  The code
appends to a plain list, so a media identifier present in two matching rows
appears twice. -/
theorem get_yt_ids_duplicate_media_id_retained :
    get_yt_ids ["/m/09x0r"]
        [⟨"abc123", "0", "10", "/m/09x0r"⟩, ⟨"abc123", "5", "15", "/m/09x0r"⟩] =
      Except.ok [("/m/09x0r", ["abc123", "abc123"])] ∧
      List.count "abc123" ["abc123", "abc123"] = 2 :=
  ⟨rfl, rfl⟩

/-- Claim C8 amended: each value of the grouper's dict is a list, not a set:
for distinct requested labels, the value stored at a requested label is the
list of media identifiers of all matching rows in input-row order, one
occurrence per matching row, so duplicates are retained. -/
theorem build_yt_dict_value_is_row_ordered_list (label_ids : List String)
    (hnd : label_ids.Nodup) (rows : List DatasetRow) (l : String) (hl : l ∈ label_ids) :
    lookup_dict (build_yt_dict label_ids rows) l =
      some ((rows.filter (fun r => isSubstring l r.raw_labels)).map
        (fun r => r.media_id)) := by
  have h := build_fold_lookup label_ids hnd l hl rows (label_ids.map fun x => (x, []))
    [] (lookup_init label_ids l hl)
  rw [build_yt_dict, init_dict_eq label_ids hnd, h]
  simp

/-- Claim C8 amended witness: on the duplicate-row input, the value stored for
"/m/09x0r" is the two-element list with "abc123" twice. -/
theorem build_yt_dict_value_is_row_ordered_list_witness :
    (["/m/09x0r"].Nodup ∧ "/m/09x0r" ∈ ["/m/09x0r"]) ∧
      lookup_dict
          (build_yt_dict ["/m/09x0r"]
            [⟨"abc123", "0", "10", "/m/09x0r"⟩, ⟨"abc123", "5", "15", "/m/09x0r"⟩])
          "/m/09x0r" =
        some ["abc123", "abc123"] :=
  ⟨⟨by simp, by simp⟩, by
    rw [build_yt_dict_value_is_row_ordered_list ["/m/09x0r"] (by simp) _ "/m/09x0r" (by simp)]
    rfl⟩

/-- Claim C9: with a source directory whose entries have distinct names,
`sort_files` produces `dst_dir/label/file` with contents `c` precisely when
the source listing has an entry `(file, c)` and some yt id of that label's
list is a substring of the file name. -/
theorem sort_files_copies_iff_name_contains_id (yt_ids : List (String × List String))
    (src : List (String × String)) (hs : (src.map Prod.fst).Nodup) (l f c : String) :
    sort_files_loop src yt_ids (fun _ => none) (l, f) = some c ↔
      ((f, c) ∈ src ∧
        ∃ ids, (l, ids) ∈ yt_ids ∧ ids.any (fun y => isSubstring y f) = true) := by
  rw [sort_files_loop_apply]
  by_cases hm : matches_some_id yt_ids l f = true
  · rw [if_pos hm]
    rw [matches_some_id_iff] at hm
    cases hlc : last_content src f with
    | some c2 =>
      have h2 := (last_content_eq_some_iff src hs f c2).mp hlc
      constructor
      · intro h
        have hc : c2 = c := by simpa [orDefault] using h
        exact ⟨hc ▸ h2, hm⟩
      · intro h
        have hc : c = c2 := keys_nodup_val_unique src hs h.1 h2
        simp [orDefault, hc]
    | none =>
      constructor
      · intro h
        simp [orDefault] at h
      · intro h
        have hmem := (last_content_eq_some_iff src hs f c).mpr h.1
        rw [hlc] at hmem
        exact Option.noConfusion hmem
  · rw [if_neg hm]
    constructor
    · intro h
      simp [orDefault] at h
    · intro h
      exact absurd ((matches_some_id_iff yt_ids l f).mpr h.2) hm

/-- Claim C9 witness: the spec scenario — source entry `abc123_0.wav`, group
"Speech" ↦ {"abc123"} — yields `dest/Speech/abc123_0.wav` with the source's
contents. -/
theorem sort_files_copies_iff_name_contains_id_witness :
    (([("abc123_0.wav", "sound")].map Prod.fst).Nodup) ∧
      sort_files_loop [("abc123_0.wav", "sound")] [("Speech", ["abc123"])]
          (fun _ => none) ("Speech", "abc123_0.wav") =
        some "sound" :=
  ⟨by simp,
    (sort_files_copies_iff_name_contains_id [("Speech", ["abc123"])]
          [("abc123_0.wav", "sound")] (by simp) "Speech" "abc123_0.wav" "sound").mpr
      ⟨by simp, ["abc123"], by simp, by rfl⟩⟩

/-- Claim C10 counterexample: the claim says a row matching two wanted
identifiers is written once per matching identifier.  With any non-empty
blacklist (whose entries are the lists `create_csv` builds on line 56), the
first matching (row, label) pair makes the blacklist intersection hash a list
and raise `TypeError`, so the comprehension aborts and no copy of the row is
written at all. -/
theorem create_csv_duplicate_claim_fails_with_blacklist :
    create_csv_rows [⟨"abc123", "0", "10", "/m/09x0r,/m/0dgw9r"⟩]
          ["/m/09x0r", "/m/0dgw9r"] [PyVal.list ["/m/0c0ka"]] =
        Except.error PyError.typeError ∧
      create_csv_rows [⟨"abc123", "0", "10", "/m/09x0r,/m/0dgw9r"⟩]
          ["/m/09x0r", "/m/0dgw9r"] [PyVal.list ["/m/0c0ka"]] ≠
        Except.ok [⟨"abc123", "0", "10", "/m/09x0r,/m/0dgw9r"⟩,
          ⟨"abc123", "0", "10", "/m/09x0r,/m/0dgw9r"⟩] := by
  refine ⟨rfl, ?_⟩
  intro h
  exact Except.noConfusion
    (show (Except.error PyError.typeError : Except PyError (List DatasetRow)) =
      Except.ok [⟨"abc123", "0", "10", "/m/09x0r,/m/0dgw9r"⟩,
        ⟨"abc123", "0", "10", "/m/09x0r,/m/0dgw9r"⟩] from h)

/-- Claim C10 amended: with the empty blacklist — the only configuration in
which the comprehension completes on a matching row — each input row is
written to the output once per wanted identifier occurring in its raw label
field, in input order: a row matching two wanted identifiers appears twice,
and exactly one copy appears exactly when one identifier matches. -/
theorem create_csv_row_written_once_per_matching_label :
    ∀ (rows : List DatasetRow) (label_id : List String),
      create_csv_rows rows label_id [] =
        Except.ok (rows.flatMap fun row =>
          List.replicate
            ((label_id.filter fun l => isSubstring l row.raw_labels).length) row) := by
  intro rows label_id
  induction rows with
  | nil =>
    rfl
  | cons r rest ih =>
    rw [create_csv_rows, filter_row_labels_empty_blacklist r label_id, ih]
    simp [Except.map, List.flatMap_cons]

example : isSubstring "bc" "abcd" = true := by decide
example : isSubstring "bd" "abcd" = false := by decide
example : get_label_id_matches "speech" true fixtureTable = ["/m/09x0r"] := by rfl
example : get_label_id_matches "female speech" false fixtureTable = ["/m/02zsn"] := by rfl
example : get_label_id_matches "speech" false fixtureTable = ["/m/09x0r", "/m/02zsn"] := by rfl
example : get_label_id "speech" false fixtureTable = Except.ok ["/m/09x0r", "/m/02zsn"] := by rfl
example : get_label_id "female speech" false fixtureTable = Except.error PyError.typeError := by rfl
example : build_yt_dict ["/m/09x0r"] [⟨"abc123", "0", "10", "/m/09x0r"⟩] =
    [("/m/09x0r", ["abc123"])] := by rfl
example : get_yt_ids ["/m/09x0r"] [⟨"xyz", "0", "10", "/m/02zsn"⟩] =
    Except.error PyError.keyError := by rfl
example : get_yt_ids ["/m/09x0r"]
      [⟨"abc123", "0", "10", "/m/09x0r"⟩, ⟨"abc123", "5", "15", "/m/09x0r"⟩] =
    Except.ok [("/m/09x0r", ["abc123", "abc123"])] := by rfl
example : sort_files_loop [("abc123_0.wav", "sound")] [("Speech", ["abc123"])]
      (fun _ => none) ("Speech", "abc123_0.wav") = some "sound" := by rfl
example : create_csv_rows [⟨"abc123", "0", "10", "/m/09x0r,/m/0dgw9r"⟩] ["/m/09x0r"]
      [PyVal.list ["/m/0dgw9r"]] = Except.error PyError.typeError := by rfl
example : create_csv_rows [⟨"xyz", "0", "10", "/m/02zsn"⟩] ["/m/09x0r"]
      [PyVal.list ["/m/0dgw9r"]] = Except.ok [] := by rfl

end AudiosetProcessing
